import Mathlib

/-!
Verification of the partial-update merger of `ienu-labs`
(`src/libs/ts-risks/src/spread-operator.spec.ts` and the unnamed sibling
file `src/unnamed/part_001`).

The TypeScript `Order` class is a JavaScript object whose declared fields
may be `undefined` at runtime (the constructor is `Object.assign(this,
partial)` on a `Partial<Order>`), so every field is embedded as an
`Option`.  `status` is declared with the closed string-literal union
`PENDING | PAID | CANCELLED`, but at runtime it is just a string, so it is
embedded as `Option String` and the enumeration becomes a predicate.
`metadata` is a `Record<string, any>`: an association list of string keys.
Losing the prototype (what the spread operator does) is embedded as the
Boolean `isOrderInstance`: `new Order(...)` sets it, an object literal does
not, and `isPaid` is only callable (returns `some`) on instances.
-/

/-- A metadata value (`any` in the source; the tests use strings and the
spec's examples use numbers). -/
inductive JsVal where
  | vStr : String → JsVal
  | vNum : Int → JsVal
deriving DecidableEq, Repr

/-- A JavaScript record `Record<string, any>` as an association list. -/
abbrev JsRec := List (String × JsVal)

/-- Property read `r[k]`: first binding of key `k` wins (object literals
have unique keys, so the first binding is the binding). -/
def recGet : JsRec → String → Option JsVal
  | [], _ => none
  | (k', v) :: rest, k => if k' = k then some v else recGet rest k

/-- JavaScript object spread of two records: keys of `a` first (those also
in `b` are overwritten by `b`, so they are dropped from the `a` part), then
all of `b`. -/
def spreadMerge (a b : JsRec) : JsRec :=
  a.filter (fun p => (recGet b p.1).isNone) ++ b

/-- The runtime shape of an `Order`-typed value: its four declared fields,
each possibly `undefined`, plus whether its prototype is `Order.prototype`
(an object built by `new Order(...)`) or a plain object (built by an
object literal such as the spread result). -/
structure Obj where
  isOrderInstance : Bool
  id : Option String
  amount : Option Int
  status : Option String
  metadata : Option JsRec
deriving DecidableEq, Repr

/-- A `Partial<Order>` argument: a plain object literal whose four
properties are each optionally present. -/
structure Update where
  id : Option String
  amount : Option Int
  status : Option String
  metadata : Option JsRec
deriving DecidableEq, Repr

/-- Truthiness of `string | undefined`: `undefined` and the empty string
are falsy. -/
def jsTruthyStr : Option String → Bool
  | none => false
  | some s => !(s == "")

/-- Truthiness of `number | undefined`: `undefined` and `0` are falsy. -/
def jsTruthyNum : Option Int → Bool
  | none => false
  | some n => !(n == 0)

/-- `new Order(partial)`: `Object.assign(this, partial)` copies the four
data properties; the result's prototype is `Order.prototype`. -/
def newOrder (p : Obj) : Obj :=
  { isOrderInstance := true
    id := p.id
    amount := p.amount
    status := p.status
    metadata := p.metadata }

/-- `o.isPaid()`: defined (`some`) only on `Order` instances, where it
returns `this.status === 'PAID'`; on a plain object the call throws
(`none`). -/
def isPaid (o : Obj) : Option Bool :=
  if o.isOrderInstance then some (o.status == some "PAID") else none

/-- `safeUpdateOrder` from `spread-operator.spec.ts`: copy the original
into a fresh `Order` instance, then conditionally assign `status` and
`amount` behind truthiness checks, then spread-merge `metadata` when the
update carries one. -/
def safeUpdateOrder (original : Obj) (updates : Update) : Obj :=
  let updated := newOrder original
  let updated :=
    if jsTruthyStr updates.status then { updated with status := updates.status }
    else updated
  let updated :=
    if jsTruthyNum updates.amount then { updated with amount := updates.amount }
    else updated
  match updates.metadata with
  | some um =>
      { updated with metadata := some (spreadMerge (original.metadata.getD []) um) }
  | none => updated

/-- `riskyUpdateOrder` from `spread-operator.spec.ts`: the object-literal
spread of `original` then `updates`.  The result is a plain object (no
prototype), each property coming from `updates` when present there and
from `original` otherwise. -/
def riskyUpdateOrder (original : Obj) (updates : Update) : Obj :=
  { isOrderInstance := false
    id := match updates.id with | some v => some v | none => original.id
    amount := match updates.amount with | some v => some v | none => original.amount
    status := match updates.status with | some v => some v | none => original.status
    metadata := match updates.metadata with | some v => some v | none => original.metadata }

/-- `safeUpdateConfig` from `src/unnamed/part_001`: same discipline as
`safeUpdateOrder` (its `Order` class there has no methods, but `new
Order(original)` still produces an instance). -/
def safeUpdateConfig (original : Obj) (updates : Update) : Obj :=
  let updated := newOrder original
  let updated :=
    if jsTruthyStr updates.status then { updated with status := updates.status }
    else updated
  let updated :=
    if jsTruthyNum updates.amount then { updated with amount := updates.amount }
    else updated
  match updates.metadata with
  | some um =>
      { updated with metadata := some (spreadMerge (original.metadata.getD []) um) }
  | none => updated

/-- The closed `status` enumeration of the `Order` class. -/
def validStatus (s : String) : Bool :=
  s == "PENDING" || s == "PAID" || s == "CANCELLED"

/-- A fully-formed Entity as the spec's data model describes it: an
`Order` instance with all four fields defined and `status` inside the
closed enumeration. -/
def entityValid (e : Obj) : Bool :=
  e.isOrderInstance
    && e.id.isSome
    && e.amount.isSome
    && (match e.status with | some s => validStatus s | none => false)
    && e.metadata.isSome

/-- A well-typed `Update`: any field it supplies satisfies the declared
type of that field; for `status` that is the closed enumeration. -/
def updateValid (u : Update) : Bool :=
  match u.status with | some s => validStatus s | none => true

/-!
A second embedding of `safeUpdateOrder` with explicit reference semantics,
for the claims about mutation and object identity.  Objects and metadata
records live in a heap addressed by `Nat`; `original` is passed as a
reference, `updates` as a cell whose `metadata` property is a reference.
`new Order(original)` allocates, the three assignment statements are
stores to the fresh cell, and the metadata spread allocates a new record.
-/

/-- A heap cell for an `Order`-typed object: `metadata` holds a reference
into the record heap. -/
structure ObjCell where
  isOrderInstance : Bool
  id : Option String
  amount : Option Int
  status : Option String
  metadata : Option Nat
deriving DecidableEq, Repr

/-- The `Partial<Order>` argument with its `metadata` property as a
reference into the record heap. -/
structure UpdCell where
  id : Option String
  amount : Option Int
  status : Option String
  metadata : Option Nat
deriving DecidableEq, Repr

/-- The heap: object cells and metadata record cells, addressed by
position. -/
structure Heap where
  objs : List ObjCell
  recs : List JsRec
deriving DecidableEq, Repr

def Heap.getObj (h : Heap) (r : Nat) : Option ObjCell := h.objs[r]?

def Heap.getRec (h : Heap) (r : Nat) : Option JsRec := h.recs[r]?

/-- Allocate a fresh object cell, returning its reference. -/
def Heap.allocObj (h : Heap) (c : ObjCell) : Heap × Nat :=
  ({ h with objs := h.objs ++ [c] }, h.objs.length)

/-- Allocate a fresh metadata record, returning its reference. -/
def Heap.allocRec (h : Heap) (rc : JsRec) : Heap × Nat :=
  ({ h with recs := h.recs ++ [rc] }, h.recs.length)

/-- A property assignment `obj.f = v`: overwrite the cell at `r`. -/
def Heap.modifyObj (h : Heap) (r : Nat) (f : ObjCell → ObjCell) : Heap :=
  match h.objs[r]? with
  | some c => { h with objs := h.objs.set r (f c) }
  | none => h

/-- `safeUpdateOrder` on the heap.  `none` only when a reference dangles
(which a well-typed TypeScript call cannot produce). -/
def safeUpdateOrderH (h : Heap) (o : Nat) (u : UpdCell) : Option (Heap × Nat) :=
  match h.getObj o with
  | none => none
  | some oc =>
    let p := h.allocObj
      { isOrderInstance := true, id := oc.id, amount := oc.amount,
        status := oc.status, metadata := oc.metadata }
    let h1 := p.1
    let r := p.2
    let h2 :=
      if jsTruthyStr u.status then h1.modifyObj r (fun c => { c with status := u.status })
      else h1
    let h3 :=
      if jsTruthyNum u.amount then h2.modifyObj r (fun c => { c with amount := u.amount })
      else h2
    match u.metadata with
    | some um =>
      let origRec := match oc.metadata with
        | some i => (h3.getRec i).getD []
        | none => []
      let updRec := (h3.getRec um).getD []
      let q := h3.allocRec (spreadMerge origRec updRec)
      some (q.1.modifyObj r (fun c => { c with metadata := some q.2 }), r)
    | none => some (h3, r)

/-- The empty update object. -/
def emptyUpd : UpdCell := { id := none, amount := none, status := none, metadata := none }

/-- The cell `new Order(original)` builds: the original's four data
properties (the `metadata` reference is copied as a reference) under the
`Order` prototype. -/
def copyCell (oc : ObjCell) : ObjCell :=
  { isOrderInstance := true
    id := oc.id
    amount := oc.amount
    status := oc.status
    metadata := oc.metadata }

/-! Concrete data used for counterexamples and witnesses, taken from the
scenario in the test files: an order `o_123`, amount 100, status
`PENDING`, metadata with a campaign and a referrer key. -/

def sampleEntity : Obj :=
  { isOrderInstance := true
    id := some "o_123"
    amount := some 100
    status := some "PENDING"
    metadata := some [("campaign", JsVal.vStr "summer_sale"), ("referrer", JsVal.vStr "google")] }

/-- An update supplying a status outside the closed enumeration. -/
def unknownStatusUpd : Update :=
  { id := none, amount := none, status := some "UNKNOWN", metadata := none }

/-- An update explicitly setting the falsy value `amount = 0`. -/
def zeroAmountUpd : Update :=
  { id := none, amount := some 0, status := none, metadata := none }

/-- The spec's metadata-merge example: the entity side `a = 1, b = 2`. -/
def specMetaEntity : Obj :=
  { isOrderInstance := true
    id := some "o_123"
    amount := some 100
    status := some "PENDING"
    metadata := some [("a", JsVal.vNum 1), ("b", JsVal.vNum 2)] }

/-- The spec's metadata-merge example: the update side `b = 9, c = 3`. -/
def specMetaUpd : Update :=
  { id := none, amount := none, status := none
    metadata := some [("b", JsVal.vNum 9), ("c", JsVal.vNum 3)] }

/-- The empty update as a plain value. -/
def emptyUpdate : Update := { id := none, amount := none, status := none, metadata := none }

/-- The test's safe-update input: set status to PAID and add a traceId. -/
def paidTraceUpd : Update :=
  { id := none, amount := none, status := some "PAID"
    metadata := some [("traceId", JsVal.vStr "safe_1")] }

/-- The test's risky-update input: add a traceId only. -/
def traceOnlyUpd : Update :=
  { id := none, amount := none, status := none
    metadata := some [("traceId", JsVal.vStr "xyz_999")] }

/-- The sample entity as a heap cell, its metadata at record index 0. -/
def sampleCell : ObjCell :=
  { isOrderInstance := true, id := some "o_123", amount := some 100,
    status := some "PENDING", metadata := some 0 }

/-- A one-object heap holding `sampleEntity`, its metadata in the record
heap. -/
def sampleHeap : Heap :=
  { objs := [sampleCell]
    recs := [[("campaign", JsVal.vStr "summer_sale"), ("referrer", JsVal.vStr "google")]] }

/-- The test's update `status PAID, metadata with a traceId`, as a heap
update cell whose metadata record is allocated at index 1. -/
def sampleHeapUpd : UpdCell :=
  { id := none, amount := none, status := some "PAID", metadata := some 1 }

/-- `sampleHeap` extended with the update's metadata record. -/
def sampleHeap2 : Heap :=
  { objs := sampleHeap.objs
    recs := sampleHeap.recs ++ [[("traceId", JsVal.vStr "safe_1")]] }

/-- The heap `safeUpdateOrderH` produces from `sampleHeap2`, reference 0
and `sampleHeapUpd`: the original cell and both original records are
intact; a second object (status PAID, metadata at the fresh record 2) and
the merged record have been appended. -/
def sampleResultHeap : Heap :=
  { objs := [sampleCell,
      { isOrderInstance := true, id := some "o_123", amount := some 100,
        status := some "PAID", metadata := some 2 }]
    recs := [[("campaign", JsVal.vStr "summer_sale"), ("referrer", JsVal.vStr "google")],
      [("traceId", JsVal.vStr "safe_1")],
      [("campaign", JsVal.vStr "summer_sale"), ("referrer", JsVal.vStr "google"),
        ("traceId", JsVal.vStr "safe_1")]] }

/-! Heap bookkeeping lemmas. -/

theorem Heap.allocObj_snd (h : Heap) (c : ObjCell) : (h.allocObj c).2 = h.objs.length := rfl

theorem Heap.getObj_allocObj_lt (h : Heap) (c : ObjCell) {j : Nat} (hj : j < h.objs.length) :
    ((h.allocObj c).1).getObj j = h.getObj j := by
  simp only [Heap.allocObj, Heap.getObj]
  exact List.getElem?_append_left hj

theorem Heap.getObj_allocObj_fresh (h : Heap) (c : ObjCell) :
    ((h.allocObj c).1).getObj h.objs.length = some c := by
  simp [Heap.allocObj, Heap.getObj]

theorem Heap.recs_allocObj (h : Heap) (c : ObjCell) : ((h.allocObj c).1).recs = h.recs := rfl

theorem Heap.objs_length_allocObj (h : Heap) (c : ObjCell) :
    ((h.allocObj c).1).objs.length = h.objs.length + 1 := by
  simp [Heap.allocObj]

theorem Heap.getObj_modifyObj_ne (h : Heap) (r : Nat) (f : ObjCell → ObjCell) {j : Nat}
    (hj : j ≠ r) : (h.modifyObj r f).getObj j = h.getObj j := by
  unfold Heap.modifyObj
  cases h.objs[r]? with
  | none => rfl
  | some c =>
    simp only [Heap.getObj]
    exact List.getElem?_set_ne (fun e => hj e.symm)

theorem Heap.recs_modifyObj (h : Heap) (r : Nat) (f : ObjCell → ObjCell) :
    (h.modifyObj r f).recs = h.recs := by
  unfold Heap.modifyObj
  cases h.objs[r]? <;> rfl

theorem Heap.objs_length_modifyObj (h : Heap) (r : Nat) (f : ObjCell → ObjCell) :
    (h.modifyObj r f).objs.length = h.objs.length := by
  unfold Heap.modifyObj
  cases h.objs[r]? <;> simp

theorem Heap.getObj_modifyObj_self (h : Heap) (r : Nat) (f : ObjCell → ObjCell) :
    (h.modifyObj r f).getObj r = (h.getObj r).map f := by
  unfold Heap.modifyObj Heap.getObj
  cases hc : h.objs[r]? with
  | none => simp [hc]
  | some c =>
    have hr : r < h.objs.length := by
      by_contra hge
      push_neg at hge
      rw [List.getElem?_eq_none hge] at hc
      exact Option.noConfusion hc
    simp [hc, List.getElem?_set_self, hr]

theorem Heap.objs_allocRec (h : Heap) (rc : JsRec) : ((h.allocRec rc).1).objs = h.objs := rfl

theorem Heap.getRec_allocRec_lt (h : Heap) (rc : JsRec) {i : Nat} (hi : i < h.recs.length) :
    ((h.allocRec rc).1).getRec i = h.getRec i := by
  simp only [Heap.allocRec, Heap.getRec]
  exact List.getElem?_append_left hi

theorem Heap.getObj_lt_length {h : Heap} {o : Nat} {c : ObjCell} (hc : h.getObj o = some c) :
    o < h.objs.length := by
  by_contra hge
  push_neg at hge
  rw [Heap.getObj, List.getElem?_eq_none hge] at hc
  exact Option.noConfusion hc

/-! Lookup through an object spread. -/

theorem recGet_append (a b : JsRec) (k : String) :
    recGet (a ++ b) k = match recGet a k with | some v => some v | none => recGet b k := by
  induction a with
  | nil => simp [recGet]
  | cons p rest ih =>
    obtain ⟨k', v⟩ := p
    by_cases hk : k' = k <;> simp [recGet, hk, ih]

theorem recGet_filter_none (a b : JsRec) (k : String) (hb : (recGet b k).isSome) :
    recGet (a.filter (fun p => (recGet b p.1).isNone)) k = none := by
  induction a with
  | nil => simp [recGet]
  | cons p rest ih =>
    obtain ⟨k', v⟩ := p
    by_cases hk : k' = k
    · subst hk
      cases hkb : recGet b k' with
      | none => rw [hkb] at hb; simp at hb
      | some w => simp [List.filter, hkb, ih]
    · cases hkb : recGet b k' with
      | none => simp [List.filter, hkb, recGet, hk, ih]
      | some w => simp [List.filter, hkb, ih]

theorem recGet_filter_some (a b : JsRec) (k : String) (hb : recGet b k = none) :
    recGet (a.filter (fun p => (recGet b p.1).isNone)) k = recGet a k := by
  induction a with
  | nil => rfl
  | cons p rest ih =>
    obtain ⟨k', v⟩ := p
    by_cases hk : k' = k
    · subst hk
      simp [List.filter, hb, recGet, ih]
    · cases hkb : recGet b k' with
      | none => simp [List.filter, hkb, recGet, hk, ih]
      | some w => simp [List.filter, hkb, recGet, hk, ih]

/-- The defining property of the object spread of two records: the right
operand wins on every key it has, the left operand supplies the rest. -/
theorem recGet_spreadMerge (a b : JsRec) (k : String) :
    recGet (spreadMerge a b) k =
      match recGet b k with | some v => some v | none => recGet a k := by
  unfold spreadMerge
  rw [recGet_append]
  cases hb : recGet b k with
  | some v =>
    rw [recGet_filter_none a b k (by simp [hb])]
  | none =>
    rw [recGet_filter_some a b k hb]
    cases recGet a k <;> simp [hb]

/-- Field-by-field description of `safeUpdateOrder`, read off its body. -/
theorem safeUpdateOrder_eq (e : Obj) (u : Update) :
    safeUpdateOrder e u =
      { isOrderInstance := true
        id := e.id
        amount := if jsTruthyNum u.amount then u.amount else e.amount
        status := if jsTruthyStr u.status then u.status else e.status
        metadata :=
          match u.metadata with
          | some um => some (spreadMerge (e.metadata.getD []) um)
          | none => e.metadata } := by
  cases hm : u.metadata <;> cases hs : jsTruthyStr u.status <;> cases ha : jsTruthyNum u.amount <;>
    simp [safeUpdateOrder, newOrder, hm, hs, ha]
/-! Claim theorems. -/

/-- C1, counterexample.  The claim says `merge(e, status UNKNOWN)` fails
with `InvalidFieldError`.  The code has no validation and no error path at
all: on the sample entity the call returns a normal `Order` instance whose
`status` has been set to the out-of-enumeration value `UNKNOWN`. -/
theorem safeUpdateOrder_unknown_counterexample :
    (safeUpdateOrder sampleEntity unknownStatusUpd).status = some "UNKNOWN"
      ∧ (safeUpdateOrder sampleEntity unknownStatusUpd).isOrderInstance = true
      ∧ validStatus "UNKNOWN" = false
      ∧ sampleEntity.status = some "PENDING" := by
  refine ⟨rfl, rfl, rfl, rfl⟩

/-- C1, amended.  `merge` performs no runtime validation: for every
original, an update supplying `status UNKNOWN` raises no error, and the
result is an `Order` instance whose `status` is `UNKNOWN`. -/
theorem safeUpdateOrder_no_validation (e : Obj) :
    (safeUpdateOrder e unknownStatusUpd).status = some "UNKNOWN"
      ∧ (safeUpdateOrder e unknownStatusUpd).isOrderInstance = true := by
  constructor
  · simp [safeUpdateOrder_eq, unknownStatusUpd, jsTruthyStr]
  · simp [safeUpdateOrder_eq]

/-- C2.  Evaluation at the failing input: the update explicitly sets
`amount = 0`, but the truthiness guard `if (updates.amount)` skips falsy
values, so the sample entity's amount stays 100 instead of becoming 0. -/
theorem safeUpdateOrder_skips_zero_amount :
    zeroAmountUpd.amount = some 0
      ∧ (safeUpdateOrder sampleEntity zeroAmountUpd).amount = some 100 := by
  refine ⟨rfl, rfl⟩

/-- C5.  Scalar fields the update omits keep the original's value. -/
theorem safeUpdateOrder_omitted_fields (e : Obj) (u : Update) :
    (u.amount = none → (safeUpdateOrder e u).amount = e.amount)
      ∧ (u.status = none → (safeUpdateOrder e u).status = e.status) := by
  constructor
  · intro h
    simp [safeUpdateOrder_eq, h, jsTruthyNum]
  · intro h
    simp [safeUpdateOrder_eq, h, jsTruthyStr]

/-- C5, witness at the empty update on the sample entity. -/
theorem safeUpdateOrder_omitted_fields_witness :
    (safeUpdateOrder sampleEntity emptyUpdate).amount = sampleEntity.amount
      ∧ (safeUpdateOrder sampleEntity emptyUpdate).status = sampleEntity.status :=
  ⟨(safeUpdateOrder_omitted_fields sampleEntity emptyUpdate).1 rfl,
    (safeUpdateOrder_omitted_fields sampleEntity emptyUpdate).2 rfl⟩

/-- C8.  `merge` never rewrites `id`: the result's `id` is always the
original's, whatever the update supplies. -/
theorem safeUpdateOrder_preserves_id (e : Obj) (u : Update) :
    (safeUpdateOrder e u).id = e.id := by
  simp [safeUpdateOrder_eq]

/-- C10.  `safeUpdateOrder` (spread-operator.spec.ts) and
`safeUpdateConfig` (unnamed/part_001) agree on every field of the
result. -/
theorem safeUpdate_functions_equivalent (e : Obj) (u : Update) :
    (safeUpdateConfig e u).id = (safeUpdateOrder e u).id
      ∧ (safeUpdateConfig e u).amount = (safeUpdateOrder e u).amount
      ∧ (safeUpdateConfig e u).status = (safeUpdateOrder e u).status
      ∧ (safeUpdateConfig e u).metadata = (safeUpdateOrder e u).metadata :=
  ⟨rfl, rfl, rfl, rfl⟩

/-- C3.  If the update carries a metadata record, the result's metadata is
the key-wise union of the original's and the update's records with the
update winning on shared keys; if not, the result's metadata is exactly
the original's. -/
theorem safeUpdateOrder_metadata_union (e : Obj) (u : Update) (em : JsRec)
    (he : e.metadata = some em) :
    (∀ um, u.metadata = some um →
      ∃ rm, (safeUpdateOrder e u).metadata = some rm ∧
        ∀ k, recGet rm k =
          match recGet um k with | some v => some v | none => recGet em k)
      ∧ (u.metadata = none → (safeUpdateOrder e u).metadata = e.metadata) := by
  constructor
  · intro um hum
    refine ⟨spreadMerge em um, ?_, ?_⟩
    · simp [safeUpdateOrder_eq, hum, he]
    · intro k
      exact recGet_spreadMerge em um k
  · intro h0
    simp [safeUpdateOrder_eq, h0]

/-- C3, witness on the spec's example: entity metadata `a = 1, b = 2`,
update metadata `b = 9, c = 3`; the merged record maps `a` to 1, `b` to 9
and `c` to 3. -/
theorem safeUpdateOrder_metadata_union_witness :
    recGet ((safeUpdateOrder specMetaEntity specMetaUpd).metadata.getD []) "a"
        = some (JsVal.vNum 1)
      ∧ recGet ((safeUpdateOrder specMetaEntity specMetaUpd).metadata.getD []) "b"
        = some (JsVal.vNum 9)
      ∧ recGet ((safeUpdateOrder specMetaEntity specMetaUpd).metadata.getD []) "c"
        = some (JsVal.vNum 3) := by
  obtain ⟨rm, hrm, hk⟩ :=
    (safeUpdateOrder_metadata_union specMetaEntity specMetaUpd
        [("a", JsVal.vNum 1), ("b", JsVal.vNum 2)] rfl).1
      [("b", JsVal.vNum 9), ("c", JsVal.vNum 3)] rfl
  simp only [hrm, Option.getD_some]
  exact ⟨by rw [hk "a"]; decide, by rw [hk "b"]; decide, by rw [hk "c"]; decide⟩

/-- C4.  On a fully-formed entity and a well-typed update, the result is
again a fully-formed entity (an `Order` instance, all fields defined,
status in the closed enumeration), and `isPaid` on the result answers
`true` exactly when the resulting status is `PAID`. -/
theorem safeUpdateOrder_valid_entity (e : Obj) (u : Update)
    (he : entityValid e = true) (hu : updateValid u = true) :
    entityValid (safeUpdateOrder e u) = true
      ∧ ((isPaid (safeUpdateOrder e u) = some true)
          ↔ (safeUpdateOrder e u).status = some "PAID") := by
  constructor
  · rw [safeUpdateOrder_eq]
    simp only [entityValid, Bool.and_eq_true] at he ⊢
    obtain ⟨⟨⟨⟨hinst, hid⟩, ham⟩, hst⟩, hmd⟩ := he
    refine ⟨⟨⟨⟨trivial, hid⟩, ?_⟩, ?_⟩, ?_⟩
    · cases hau : u.amount with
      | none => simpa [jsTruthyNum] using ham
      | some n => by_cases hn : n = 0 <;> simp [jsTruthyNum, hn, ham]
    · cases hsu : u.status with
      | none => simpa [jsTruthyStr] using hst
      | some s =>
        rw [updateValid, hsu] at hu
        simp only [] at hu
        by_cases hs0 : s = ""
        · simpa [jsTruthyStr, hs0] using hst
        · simp [jsTruthyStr, hs0, hu]
    · cases hum : u.metadata with
      | none => simpa using hmd
      | some um => simp
  · simp [safeUpdateOrder_eq, isPaid]

/-- C4, witness on the test's scenario: pending sample entity updated to
PAID with a traceId. -/
theorem safeUpdateOrder_valid_entity_witness :
    entityValid (safeUpdateOrder sampleEntity paidTraceUpd) = true
      ∧ ((isPaid (safeUpdateOrder sampleEntity paidTraceUpd) = some true)
          ↔ (safeUpdateOrder sampleEntity paidTraceUpd).status = some "PAID") :=
  safeUpdateOrder_valid_entity sampleEntity paidTraceUpd (by decide) (by decide)

/-- C9.  The risky spread variant: when the update carries metadata, the
result's metadata is exactly the update's record (every original-only key
is dropped), and the result is a plain object, not an `Order` instance, so
calling `isPaid` on it throws. -/
theorem riskyUpdateOrder_strips (e : Obj) (u : Update) (um : JsRec)
    (h : u.metadata = some um) :
    (riskyUpdateOrder e u).metadata = some um
      ∧ (riskyUpdateOrder e u).isOrderInstance = false
      ∧ isPaid (riskyUpdateOrder e u) = none := by
  refine ⟨?_, rfl, ?_⟩
  · simp [riskyUpdateOrder, h]
  · simp [isPaid, riskyUpdateOrder]

/-- C9, witness on the test's scenario: the sample entity risky-updated
with only a traceId loses campaign and referrer and the `isPaid`
capability. -/
theorem riskyUpdateOrder_strips_witness :
    (riskyUpdateOrder sampleEntity traceOnlyUpd).metadata
        = some [("traceId", JsVal.vStr "xyz_999")]
      ∧ (riskyUpdateOrder sampleEntity traceOnlyUpd).isOrderInstance = false
      ∧ isPaid (riskyUpdateOrder sampleEntity traceOnlyUpd) = none :=
  riskyUpdateOrder_strips sampleEntity traceOnlyUpd [("traceId", JsVal.vStr "xyz_999")] rfl

/-! Frame lemmas for the conditional stores in `safeUpdateOrderH`. -/

theorem Heap.getObj_allocRec (h : Heap) (rc : JsRec) (j : Nat) :
    ((h.allocRec rc).1).getObj j = h.getObj j := rfl

theorem Heap.getRec_congr {h h' : Heap} (hre : h'.recs = h.recs) (i : Nat) :
    h'.getRec i = h.getRec i := by
  rw [Heap.getRec, Heap.getRec, hre]

theorem Heap.getObj_condModify_ne (h : Heap) (b : Bool) (L : Nat) (f : ObjCell → ObjCell)
    {j : Nat} (hj : j ≠ L) :
    (if b then h.modifyObj L f else h).getObj j = h.getObj j := by
  cases b
  · simp
  · simpa using Heap.getObj_modifyObj_ne h L f hj

theorem Heap.recs_condModify (h : Heap) (b : Bool) (L : Nat) (f : ObjCell → ObjCell) :
    (if b then h.modifyObj L f else h).recs = h.recs := by
  cases b
  · simp
  · simpa using Heap.recs_modifyObj h L f

/-- C7.  Merging with the empty update raises no error and returns a fresh
reference (a distinct instance), an `Order` instance value-equal to the
original in every field (`metadata` is the very same record reference),
with the record heap untouched. -/
theorem safeUpdateOrderH_empty_update (h : Heap) (o : Nat) (oc : ObjCell)
    (hc : h.getObj o = some oc) :
    safeUpdateOrderH h o emptyUpd = some ((h.allocObj (copyCell oc)).1, h.objs.length)
      ∧ h.objs.length ≠ o
      ∧ ((h.allocObj (copyCell oc)).1).getObj h.objs.length = some (copyCell oc)
      ∧ ((h.allocObj (copyCell oc)).1).recs = h.recs := by
  have ho : o < h.objs.length := Heap.getObj_lt_length hc
  refine ⟨?_, ?_, ?_, ?_⟩
  · unfold safeUpdateOrderH
    rw [hc]
    simp [emptyUpd, jsTruthyStr, jsTruthyNum, copyCell]
    rfl
  · exact ne_of_gt ho
  · exact Heap.getObj_allocObj_fresh h _
  · rfl

/-- C7, witness: the one-object sample heap under the empty update; the
call succeeds, and the fresh reference 1 differs from the original
reference 0. -/
theorem safeUpdateOrderH_empty_update_witness :
    safeUpdateOrderH sampleHeap 0 emptyUpd =
        some ((sampleHeap.allocObj (copyCell sampleCell)).1, 1)
      ∧ (1 : Nat) ≠ 0
      ∧ ((sampleHeap.allocObj (copyCell sampleCell)).1).getObj 1 = some (copyCell sampleCell)
      ∧ ((sampleHeap.allocObj (copyCell sampleCell)).1).recs = sampleHeap.recs := by
  have hmain := safeUpdateOrderH_empty_update sampleHeap 0 sampleCell rfl
  exact ⟨hmain.1, hmain.2.1, hmain.2.2.1, hmain.2.2.2⟩

/-- The record heap survives the allocate-then-conditionally-store chain
that builds the updated object. -/
theorem heap_chain_recs (h : Heap) (c : ObjCell) (b1 b2 : Bool) (f1 f2 : ObjCell → ObjCell) :
    (if b2 then
        (if b1 then ((h.allocObj c).1).modifyObj h.objs.length f1
          else (h.allocObj c).1).modifyObj h.objs.length f2
      else
        if b1 then ((h.allocObj c).1).modifyObj h.objs.length f1
        else (h.allocObj c).1).recs = h.recs := by
  rw [Heap.recs_condModify, Heap.recs_condModify, Heap.recs_allocObj]

/-- C6.  `safeUpdateOrderH` never mutates pre-existing state: every object
cell and every metadata record that existed in the input heap is unchanged
in the output heap; in particular the original entity and its metadata are
untouched. -/
theorem safeUpdateOrderH_no_mutation (h : Heap) (o : Nat) (u : UpdCell) (h' : Heap) (r : Nat)
    (hrun : safeUpdateOrderH h o u = some (h', r)) :
    (∀ j, j < h.objs.length → h'.getObj j = h.getObj j)
      ∧ (∀ i, i < h.recs.length → h'.getRec i = h.getRec i) := by
  unfold safeUpdateOrderH at hrun
  cases hc : h.getObj o with
  | none =>
    rw [hc] at hrun
    exact absurd hrun (by simp)
  | some oc =>
    rw [hc] at hrun
    simp only [Heap.allocObj_snd] at hrun
    cases hum : u.metadata with
    | none =>
      rw [hum] at hrun
      simp only [Option.some.injEq, Prod.mk.injEq] at hrun
      obtain ⟨hh, hr⟩ := hrun
      subst hh
      constructor
      · intro j hj
        have hjL : j ≠ h.objs.length := ne_of_lt hj
        rw [Heap.getObj_condModify_ne _ _ _ _ hjL, Heap.getObj_condModify_ne _ _ _ _ hjL,
          Heap.getObj_allocObj_lt _ _ hj]
      · intro i hi
        exact Heap.getRec_congr
          (by rw [Heap.recs_condModify, Heap.recs_condModify, Heap.recs_allocObj]) i
    | some um =>
      rw [hum] at hrun
      simp only [Option.some.injEq, Prod.mk.injEq] at hrun
      obtain ⟨hh, hr⟩ := hrun
      subst hh
      constructor
      · intro j hj
        have hjL : j ≠ h.objs.length := ne_of_lt hj
        rw [Heap.getObj_modifyObj_ne _ _ _ hjL, Heap.getObj_allocRec,
          Heap.getObj_condModify_ne _ _ _ _ hjL, Heap.getObj_condModify_ne _ _ _ _ hjL,
          Heap.getObj_allocObj_lt _ _ hj]
      · intro i hi
        rw [Heap.getRec_congr (Heap.recs_modifyObj _ _ _) i]
        rw [Heap.getRec_allocRec_lt _ _ (by rw [heap_chain_recs]; exact hi)]
        exact Heap.getRec_congr (heap_chain_recs _ _ _ _ _ _) i

/-- C6, witness: running the test scenario on the sample heap leaves the
original object (reference 0) and both pre-existing metadata records
(references 0 and 1) unchanged. -/
theorem safeUpdateOrderH_no_mutation_witness :
    sampleResultHeap.getObj 0 = sampleHeap2.getObj 0
      ∧ sampleResultHeap.getRec 0 = sampleHeap2.getRec 0
      ∧ sampleResultHeap.getRec 1 = sampleHeap2.getRec 1 := by
  have hmain :=
    safeUpdateOrderH_no_mutation sampleHeap2 0 sampleHeapUpd sampleResultHeap 1 (by decide)
  exact ⟨hmain.1 0 (by decide), hmain.2 0 (by decide), hmain.2 1 (by decide)⟩
